import Mathlib

/-!
The credential and token gate of `ecommerce_server.js`.

A shallow embedding of the authentication parts of `ecommerce_server.js`:
the middleware `authenticateToken` and the `/register` and `/login` handlers.

The handlers talk to collaborators that are not part of the file: `pool.query`
(the `./db` connection pool), `bcrypt.hash`, `bcrypt.compare`, `jwt.sign` and
`jwt.verify`.  They are parameters of the model (`Env`); every call a handler
makes to one of them is recorded, in order, in a call log, so that "is not
called" and "is called with these arguments" are statements about the log.
-/

namespace EcommerceServer

/-! ## JavaScript values -/

/-- A JavaScript value as it reaches the handlers through `express.json()` or a
result row.  Objects and arrays are carried by their JSON text: the handlers
only test them for truthiness and pass them on. -/
inductive JsVal where
  | undefined
  | null
  | bool (b : Bool)
  | num (n : Int)
  | str (s : String)
  | composite (json : String)
  deriving DecidableEq, Repr

/-- JavaScript truthiness, the test behind `!x` and `if (x)`. -/
def JsVal.truthy : JsVal → Bool
  | .undefined => false
  | .null => false
  | .bool b => b
  | .num n => n != 0
  | .str s => s != ""
  | .composite _ => true

/-- A flat JavaScript object: the parsed request body, a result row, a token
payload. -/
abbrev JsObject := List (String × JsVal)

/-- Property access `o.k`: `undefined` when the object has no such key. -/
def JsObject.get (o : JsObject) (k : String) : JsVal :=
  (o.lookup k).getD JsVal.undefined

/-! ## `String.prototype.split` with a one-character separator -/

/-- The pieces of a character list between occurrences of `sep`; the empty list
gives one empty piece, as `''.split(' ')` is `['']`. -/
def splitChars (sep : Char) : List Char → List (List Char)
  | [] => [[]]
  | c :: cs =>
    if c = sep then [] :: splitChars sep cs
    else
      match splitChars sep cs with
      | [] => [[c]]
      | w :: ws => (c :: w) :: ws

/-- The call `s.split(sep)` for a one-character `sep`. -/
def split (s : String) (sep : Char) : List String :=
  (splitChars sep s.toList).map String.mk

/-! ## Collaborators -/

/-- The ways `jwt.verify` throws. -/
inductive VerifyError where
  | malformed
  | invalidSignature
  | expired
  | other (message : String)
  deriving DecidableEq, Repr

/-- The third argument of `jwt.sign`. -/
structure SignOptions where
  expiresIn : String
  deriving DecidableEq, Repr

/-- One call to a collaborator, with its arguments. -/
inductive Call where
  | query (text : String) (params : List JsVal)
  | bcryptHash (data : JsVal) (saltRounds : Nat)
  | bcryptCompare (data : JsVal) (encrypted : JsVal)
  | jwtSign (payload : JsObject) (secretOrPrivateKey : Option String) (options : SignOptions)
  | jwtVerify (token : String) (secretOrPublicKey : Option String)
  deriving DecidableEq, Repr

/-- What the file requires and reads from the process: the secret
`process.env.SECRET_KEY` (`none` when the variable is unset), the pool over a
database state `σ`, `bcrypt` and `jsonwebtoken`.  A thrown exception or rejected
promise is `Except.error`. -/
structure Env (σ : Type) where
  SECRET_KEY : Option String
  query : σ → String → List JsVal → Except String (List JsObject) × σ
  bcryptHash : JsVal → Nat → Except String String
  bcryptCompare : JsVal → JsVal → Except String Bool
  jwtSign : JsObject → Option String → SignOptions → Except String String
  jwtVerify : String → Option String → Except VerifyError JsObject

/-! ## Requests and responses -/

/-- The parts of `req` the handlers read or write. -/
structure Request where
  authorization : Option String
  body : JsObject
  user : Option JsObject
  deriving DecidableEq, Repr

/-- The JSON bodies the handlers send. -/
inductive Body where
  | error (error : String)
  | registered (message : String) (user : Option JsObject)
  | loggedIn (message : String) (token : String)
  deriving DecidableEq, Repr

/-- A sent response: `res.status(s).json(b)`; `res.json(b)` sends status 200. -/
structure Response where
  status : Nat
  body : Body
  deriving DecidableEq, Repr

/-! ## `authenticateToken` -/

/-- The expression `req.header('Authorization')?.split(' ')[1]`. -/
def bearerToken (req : Request) : Option String :=
  req.authorization.bind fun h => (split h ' ')[1]?

/-- The state of a request after the middleware ran: the response it sent, if
any, the request with what was attached to it, how often the continuation
`next` was called, and the calls made. -/
structure GateOutcome where
  response : Option Response
  req : Request
  nextCalls : Nat
  calls : List Call
  deriving DecidableEq, Repr

/-- The middleware `authenticateToken(req, res, next)`. -/
def authenticateToken {σ : Type} (env : Env σ) (req : Request) : GateOutcome :=
  match bearerToken req with
  | none => -- `!undefined`
    { response := some ⟨401, .error "Access denied. No token provided."⟩,
      req := req, nextCalls := 0, calls := [] }
  | some token =>
    if token == "" then -- `!''`
      { response := some ⟨401, .error "Access denied. No token provided."⟩,
        req := req, nextCalls := 0, calls := [] }
    else
      match env.jwtVerify token env.SECRET_KEY with
      | .ok verified =>
        { response := none, req := { req with user := some verified },
          nextCalls := 1, calls := [.jwtVerify token env.SECRET_KEY] }
      | .error _ =>
        { response := some ⟨401, .error "Invalid or expired token."⟩,
          req := req, nextCalls := 0, calls := [.jwtVerify token env.SECRET_KEY] }

/-! ## `/register` and `/login` -/

/-- The state after a route handler ran: the response it sent, the database
state the pool was left in, and the calls it made. -/
structure Outcome (σ : Type) where
  response : Response
  db : σ
  calls : List Call
  deriving DecidableEq, Repr

/-- The lookup statement of both handlers. -/
def selectUserByEmail : String := "SELECT * FROM users WHERE email = $1"

/-- The insert statement of `/register` (a template literal over two lines). -/
def insertUser : String :=
  "INSERT INTO users (name, email, password, address, phone_number) \n             VALUES ($1, $2, $3, $4, $5) RETURNING *"

/-- The handler `app.post('/register', ...)`. -/
def register {σ : Type} (env : Env σ) (db : σ) (req : Request) : Outcome σ :=
  let name := req.body.get "name"
  let email := req.body.get "email"
  let password := req.body.get "password"
  let address := req.body.get "address"
  let phone_number := req.body.get "phone_number"
  if !name.truthy || !email.truthy || !password.truthy then
    { response := ⟨400, .error "Name, email, and password are required."⟩,
      db := db, calls := [] }
  else
    match env.query db selectUserByEmail [email] with
    | (.error _, db₁) =>
      { response := ⟨500, .error "Error registering user."⟩, db := db₁,
        calls := [.query selectUserByEmail [email]] }
    | (.ok existingUser, db₁) =>
      if existingUser.length > 0 then
        { response := ⟨409, .error "Email already in use."⟩, db := db₁,
          calls := [.query selectUserByEmail [email]] }
      else
        match env.bcryptHash password 10 with
        | .error _ =>
          { response := ⟨500, .error "Error registering user."⟩, db := db₁,
            calls := [.query selectUserByEmail [email], .bcryptHash password 10] }
        | .ok hashedPassword =>
          let params := [name, email, .str hashedPassword, address, phone_number]
          match env.query db₁ insertUser params with
          | (.error _, db₂) =>
            { response := ⟨500, .error "Error registering user."⟩, db := db₂,
              calls := [.query selectUserByEmail [email], .bcryptHash password 10,
                        .query insertUser params] }
          | (.ok result, db₂) =>
            { response := ⟨201, .registered "User registered successfully!" result[0]?⟩,
              db := db₂,
              calls := [.query selectUserByEmail [email], .bcryptHash password 10,
                        .query insertUser params] }

/-- The handler `app.post('/login', ...)`. -/
def login {σ : Type} (env : Env σ) (db : σ) (req : Request) : Outcome σ :=
  let email := req.body.get "email"
  let password := req.body.get "password"
  if !email.truthy || !password.truthy then
    { response := ⟨400, .error "Email and password are required."⟩,
      db := db, calls := [] }
  else
    match env.query db selectUserByEmail [email] with
    | (.error _, db₁) =>
      { response := ⟨500, .error "Error logging in."⟩, db := db₁,
        calls := [.query selectUserByEmail [email]] }
    | (.ok [], db₁) =>
      { response := ⟨401, .error "Invalid credentials."⟩, db := db₁,
        calls := [.query selectUserByEmail [email]] }
    | (.ok (row :: _), db₁) =>
      match env.bcryptCompare password (row.get "password") with
      | .error _ =>
        { response := ⟨500, .error "Error logging in."⟩, db := db₁,
          calls := [.query selectUserByEmail [email],
                    .bcryptCompare password (row.get "password")] }
      | .ok false =>
        { response := ⟨401, .error "Invalid credentials."⟩, db := db₁,
          calls := [.query selectUserByEmail [email],
                    .bcryptCompare password (row.get "password")] }
      | .ok true =>
        let payload : JsObject := [("user_id", row.get "user_id"), ("email", row.get "email")]
        match env.jwtSign payload env.SECRET_KEY ⟨"1h"⟩ with
        | .error _ =>
          { response := ⟨500, .error "Error logging in."⟩, db := db₁,
            calls := [.query selectUserByEmail [email],
                      .bcryptCompare password (row.get "password"),
                      .jwtSign payload env.SECRET_KEY ⟨"1h"⟩] }
        | .ok token =>
          { response := ⟨200, .loggedIn "Login successful!" token⟩, db := db₁,
            calls := [.query selectUserByEmail [email],
                      .bcryptCompare password (row.get "password"),
                      .jwtSign payload env.SECRET_KEY ⟨"1h"⟩] }

/-! ## Readings of the specification used in the statements -/

/-- The header form the specification calls conventional: `"Bearer <token>"`,
the word `Bearer`, one space, and a non-empty token without spaces. -/
def isBearerForm (h : String) : Bool :=
  let cs := h.toList
  cs.take 7 == "Bearer ".toList && !(cs.drop 7).isEmpty && !(cs.drop 7).contains ' '

/-- A body field that is missing in the words of the specification: absent from
the body, or the empty string. -/
def absentOrEmpty : JsVal → Bool
  | .undefined => true
  | .str s => s == ""
  | _ => false

/-- Every field name that occurs in a response body, nested ones included. -/
def Body.fieldNames : Body → List String
  | .error _ => ["error"]
  | .registered _ none => ["message"]
  | .registered _ (some user) => ["message", "user"] ++ user.map Prod.fst
  | .loggedIn _ _ => ["message", "token"]

/-- The value of a decimal digit character. -/
def digitValue (c : Char) : Option Nat :=
  if '0'.toNat ≤ c.toNat ∧ c.toNat ≤ '9'.toNat then some (c.toNat - '0'.toNat) else none

/-- The number written by a non-empty list of decimal digits. -/
def decimalValue : List Char → Option Nat
  | [] => none
  | cs => cs.foldl (fun acc c => acc.bind fun n => (digitValue c).map fun d => 10 * n + d) (some 0)

/-- Modelled from the spec: the fixed ttl of the Token Issuer, in seconds, as
named by the `expiresIn` option of `jwt.sign` (`jsonwebtoken` is not among the
sources).  A span is a decimal number followed by a unit: `s`, `m`, `h` or `d`. -/
def SignOptions.ttlSeconds (o : SignOptions) : Option Nat :=
  match o.expiresIn.toList.reverse with
  | 's' :: ds => (decimalValue ds.reverse).map (· * 1)
  | 'm' :: ds => (decimalValue ds.reverse).map (· * 60)
  | 'h' :: ds => (decimalValue ds.reverse).map (· * 3600)
  | 'd' :: ds => (decimalValue ds.reverse).map (· * 86400)
  | _ => none

/-- Modelled from the spec: `expires_at = issued_at + ttl`, the expiry the Token
Issuer stamps on a token issued at `issuedAt` (seconds). -/
def SignOptions.expiresAt (o : SignOptions) (issuedAt : Nat) : Option Nat :=
  o.ttlSeconds.map (issuedAt + ·)

/-! ## A concrete environment

An in-memory `users` table and small stand-ins for `bcrypt` and `jsonwebtoken`,
on which the handlers can be evaluated. -/

/-- An in-memory `users` table with a serial `user_id`. -/
structure UsersTable where
  rows : List JsObject
  nextId : Nat
  deriving DecidableEq, Repr

/-- A bound parameter as the table stores it: `undefined` is stored as `null`. -/
def sqlParam : JsVal → JsVal
  | .undefined => .null
  | v => v

/-- Modelled from the spec: the Identity Directory behind `pool` (`./db` is not
among the sources): `lookup(email)` for the select statement and
`insert(record) -> IdentityRecord` for the insert statement, whose
`RETURNING *` gives the created row with all its columns. -/
def UsersTable.query (t : UsersTable) (text : String) (params : List JsVal) :
    Except String (List JsObject) × UsersTable :=
  if text = selectUserByEmail then
    match params with
    | [email] => (.ok (t.rows.filter fun r => r.get "email" == sqlParam email), t)
    | _ => (.error "bind message supplies the wrong number of parameters", t)
  else if text = insertUser then
    match params with
    | [name, email, password, address, phone_number] =>
      let row : JsObject :=
        [("user_id", .num t.nextId), ("name", sqlParam name), ("email", sqlParam email),
         ("password", sqlParam password), ("address", sqlParam address),
         ("phone_number", sqlParam phone_number)]
      (.ok [row], { rows := t.rows ++ [row], nextId := t.nextId + 1 })
    | _ => (.error "bind message supplies the wrong number of parameters", t)
  else (.error "unsupported statement", t)

/-- A stand-in for `bcrypt.hash`: tags the plaintext; a non-string throws. -/
def demoHash : JsVal → Nat → Except String String
  | .str s, _ => .ok ("$2b$10$" ++ s)
  | _, _ => .error "data must be a string or Buffer"

/-- A stand-in for `bcrypt.compare`. -/
def demoCompare : JsVal → JsVal → Except String Bool
  | .str s, .str h => .ok (h == "$2b$10$" ++ s)
  | _, _ => .error "data and hash must be strings"

/-- A stand-in for `jwt.sign`: the token names the key and the payload's email;
without a key it throws. -/
def demoSign : JsObject → Option String → SignOptions → Except String String
  | payload, some key, _ =>
    match payload.get "email" with
    | .str email => .ok (key ++ ":" ++ email)
    | _ => .error "payload without email"
  | _, none, _ => .error "secretOrPrivateKey must have a value"

/-- A stand-in for `jwt.verify`: accepts the two-part tokens of `demoSign` made
with the same key. -/
def demoVerify : String → Option String → Except VerifyError JsObject
  | _, none => .error (.other "secret or public key must be provided")
  | token, some key =>
    match split token ':' with
    | [k, email] => if k = key then .ok [("email", .str email)] else .error .invalidSignature
    | _ => .error .malformed

/-- The concrete environment with the given secret. -/
def demoEnv (secret : Option String) : Env UsersTable :=
  { SECRET_KEY := secret, query := UsersTable.query, bcryptHash := demoHash,
    bcryptCompare := demoCompare, jwtSign := demoSign, jwtVerify := demoVerify }

/-- A table holding one registered user. -/
def oneUser : UsersTable :=
  { rows := [[("user_id", .num 1), ("name", .str "A"), ("email", .str "a@x.com"),
              ("password", .str "$2b$10$secret"), ("address", .null),
              ("phone_number", .null)]],
    nextId := 2 }

/-- A request without headers carrying the given JSON body. -/
def post (body : JsObject) : Request :=
  { authorization := none, body := body, user := none }

/-- A request with the given `Authorization` header and no body. -/
def withHeader (h : String) : Request :=
  { authorization := some h, body := [], user := none }

/-! ## Lemmas on `split` -/

theorem splitChars_of_not_mem (sep : Char) (cs : List Char) (h : sep ∉ cs) :
    splitChars sep cs = [cs] := by
  induction cs with
  | nil => rfl
  | cons c cs ih =>
    have hc : ¬ c = sep := fun e => h (by simp [e])
    have hcs : sep ∉ cs := fun m => h (List.mem_cons_of_mem _ m)
    simp [splitChars, hc, ih hcs]

theorem splitChars_append (sep : Char) (a rest : List Char) (h : sep ∉ a) :
    splitChars sep (a ++ sep :: rest) = a :: splitChars sep rest := by
  induction a with
  | nil => simp [splitChars]
  | cons c a ih =>
    have hc : ¬ c = sep := fun e => h (by simp [e])
    have ha : sep ∉ a := fun m => h (List.mem_cons_of_mem _ m)
    simp [splitChars, hc, ih ha]

/-- A header without a space has no second field. -/
theorem split_second_of_no_space (h : String) (hs : ' ' ∉ h.toList) :
    (split h ' ')[1]? = none := by
  rw [split, splitChars_of_not_mem ' ' h.toList hs]
  rfl

/-- A header whose first space ends it, or is followed by another space, has an
empty second field. -/
theorem split_second_of_space_then_gap (h : String) (a rest : List Char)
    (hh : h.toList = a ++ ' ' :: rest) (ha : ' ' ∉ a)
    (hrest : rest = [] ∨ ∃ r, rest = ' ' :: r) :
    (split h ' ')[1]? = some "" := by
  rw [split, hh, splitChars_append ' ' a rest ha]
  rcases hrest with hr | ⟨r, hr⟩
  · subst hr
    rfl
  · subst hr
    simp only [splitChars, if_true, List.map_cons, List.getElem?_cons_succ,
      List.getElem?_cons_zero]

/-- The header `"Bearer " ++ t` with a `t` free of spaces carries `t`. -/
theorem split_second_of_bearer (t : String) (ht : ' ' ∉ t.toList) :
    (split ("Bearer " ++ t) ' ')[1]? = some t := by
  have h7 : ("Bearer " ++ t).toList = "Bearer".toList ++ ' ' :: t.toList := rfl
  have hb : ' ' ∉ "Bearer".toList := by decide
  rw [split, h7, splitChars_append ' ' _ _ hb, splitChars_of_not_mem ' ' _ ht]
  rfl

/-! ## The access gate -/

/-- C1: when the request carries a token (the second space-separated field of
the `Authorization` header, non-empty) and `jwt.verify` throws on it with the
server secret, for whatever reason, `authenticateToken` answers 401 with body
`Invalid or expired token.`, leaves the request as it was (`req.user` is not
set) and does not call `next`; the outcome does not depend on the kind of
failure. -/
theorem authenticateToken_rejects_failed_verification {σ : Type} (env : Env σ)
    (req : Request) (token : String) (e : VerifyError)
    (htoken : bearerToken req = some token) (hne : token ≠ "")
    (hfail : env.jwtVerify token env.SECRET_KEY = .error e) :
    authenticateToken env req =
      { response := some ⟨401, .error "Invalid or expired token."⟩,
        req := req, nextCalls := 0, calls := [.jwtVerify token env.SECRET_KEY] } := by
  simp [authenticateToken, htoken, hne, hfail]

/-- C1 at a header whose token was signed with another key. -/
theorem authenticateToken_rejects_failed_verification_witness :
    authenticateToken (demoEnv (some "k")) (withHeader "Bearer x:a@x.com") =
      { response := some ⟨401, .error "Invalid or expired token."⟩,
        req := withHeader "Bearer x:a@x.com", nextCalls := 0,
        calls := [.jwtVerify "x:a@x.com" (some "k")] } :=
  authenticateToken_rejects_failed_verification (demoEnv (some "k"))
    (withHeader "Bearer x:a@x.com") "x:a@x.com" .invalidSignature
    (by decide) (by decide) rfl

/-- C2: when the request carries a token that `jwt.verify` accepts with the
server secret, `authenticateToken` stores exactly the verified value in
`req.user`, calls `next` once, and sends no response. -/
theorem authenticateToken_accepts_verified_token {σ : Type} (env : Env σ)
    (req : Request) (token : String) (verified : JsObject)
    (htoken : bearerToken req = some token) (hne : token ≠ "")
    (hok : env.jwtVerify token env.SECRET_KEY = .ok verified) :
    authenticateToken env req =
      { response := none, req := { req with user := some verified },
        nextCalls := 1, calls := [.jwtVerify token env.SECRET_KEY] } := by
  simp [authenticateToken, htoken, hne, hok]

/-- C2 at a header whose token was signed with the server key. -/
theorem authenticateToken_accepts_verified_token_witness :
    authenticateToken (demoEnv (some "k")) (withHeader "Bearer k:a@x.com") =
      { response := none,
        req := { withHeader "Bearer k:a@x.com" with user := some [("email", .str "a@x.com")] },
        nextCalls := 1, calls := [.jwtVerify "k:a@x.com" (some "k")] } :=
  authenticateToken_accepts_verified_token (demoEnv (some "k"))
    (withHeader "Bearer k:a@x.com") "k:a@x.com" [("email", .str "a@x.com")]
    (by decide) (by decide) rfl

/-- C3: a request without an `Authorization` header is answered 401 with body
`Access denied. No token provided.`; `jwt.verify` is not called (the call log is
empty), the request is left as it was and `next` is not called. -/
theorem authenticateToken_without_header {σ : Type} (env : Env σ) (req : Request)
    (hnone : req.authorization = none) :
    authenticateToken env req =
      { response := some ⟨401, .error "Access denied. No token provided."⟩,
        req := req, nextCalls := 0, calls := [] } := by
  simp [authenticateToken, bearerToken, hnone]

/-- C3 at a request without headers. -/
theorem authenticateToken_without_header_witness :
    authenticateToken (demoEnv (some "k")) (post []) =
      { response := some ⟨401, .error "Access denied. No token provided."⟩,
        req := post [], nextCalls := 0, calls := [] } :=
  authenticateToken_without_header (demoEnv (some "k")) (post []) rfl

/-- C4, as stated, fails: the header `Basic abc` is not of the form
`Bearer <token>`, yet `authenticateToken` hands its second field `abc` to
`jwt.verify` and answers with the invalid-token body, not the no-token one. -/
theorem authenticateToken_other_scheme_reaches_verifier :
    isBearerForm "Basic abc" = false ∧
    (authenticateToken (demoEnv (some "k")) (withHeader "Basic abc")).calls
      = [.jwtVerify "abc" (some "k")] ∧
    (authenticateToken (demoEnv (some "k")) (withHeader "Basic abc")).response
      = some ⟨401, .error "Invalid or expired token."⟩ := by
  decide

/-- C4, amended: when the `Authorization` header has no second space-separated
field (it contains no space) or an empty one (its first space ends the header
or is followed by another space), `authenticateToken` answers 401 with body
`Access denied. No token provided.`, calls nothing, leaves the request as it
was and does not call `next`. -/
theorem authenticateToken_without_second_field {σ : Type} (env : Env σ)
    (req : Request) (h : String) (hh : req.authorization = some h)
    (hshape : ' ' ∉ h.toList ∨
      ∃ a rest, h.toList = a ++ ' ' :: rest ∧ ' ' ∉ a ∧ (rest = [] ∨ ∃ r, rest = ' ' :: r)) :
    authenticateToken env req =
      { response := some ⟨401, .error "Access denied. No token provided."⟩,
        req := req, nextCalls := 0, calls := [] } := by
  rcases hshape with hs | ⟨a, rest, hsplit, ha, hrest⟩
  · simp [authenticateToken, bearerToken, hh, split_second_of_no_space h hs]
  · simp [authenticateToken, bearerToken, hh,
      split_second_of_space_then_gap h a rest hsplit ha hrest]

/-- C4, amended, at a header with two spaces after the scheme word. -/
theorem authenticateToken_without_second_field_witness :
    authenticateToken (demoEnv (some "k")) (withHeader "Bearer  k:a@x.com") =
      { response := some ⟨401, .error "Access denied. No token provided."⟩,
        req := withHeader "Bearer  k:a@x.com", nextCalls := 0, calls := [] } :=
  authenticateToken_without_second_field (demoEnv (some "k"))
    (withHeader "Bearer  k:a@x.com") "Bearer  k:a@x.com" rfl
    (Or.inr ⟨"Bearer".toList, " k:a@x.com".toList, by decide, by decide,
      Or.inr ⟨"k:a@x.com".toList, by decide⟩⟩)

/-! ## Registration -/

/-- The registration request of the specification's scenario. -/
def registerA : Request :=
  post [("name", .str "A"), ("email", .str "a@x.com"), ("password", .str "secret")]

/-- C5, as stated, fails: registering `A` on an empty table succeeds with 201,
and the body's `user` is the created row with its `password` column, which
holds the hash that was stored. -/
theorem register_echoes_stored_hash :
    (register (demoEnv (some "k")) ⟨[], 1⟩ registerA).response =
      ⟨201, .registered "User registered successfully!"
        (some [("user_id", .num 1), ("name", .str "A"), ("email", .str "a@x.com"),
               ("password", .str "$2b$10$secret"), ("address", .null),
               ("phone_number", .null)])⟩ ∧
    "password" ∈ (register (demoEnv (some "k")) ⟨[], 1⟩ registerA).response.body.fieldNames ∧
    (register (demoEnv (some "k")) ⟨[], 1⟩ registerA).db.rows.map (·.get "password")
      = [.str "$2b$10$secret"] := by
  decide

/-- C5, amended: when name, email and password are present (truthy), the lookup
finds no row, hashing and the insert succeed, `/register` answers 201 with
body `{message: 'User registered successfully!', user: r}` where `r` is the
first row the insert returned, as returned: every column of that row is a field
of the response. -/
theorem register_success_returns_inserted_row {σ : Type} (env : Env σ)
    (db db₁ db₂ : σ) (req : Request) (hashed : String) (result : List JsObject)
    (hname : (req.body.get "name").truthy = true)
    (hemail : (req.body.get "email").truthy = true)
    (hpassword : (req.body.get "password").truthy = true)
    (hlookup : env.query db selectUserByEmail [req.body.get "email"] = (.ok [], db₁))
    (hhash : env.bcryptHash (req.body.get "password") 10 = .ok hashed)
    (hinsert : env.query db₁ insertUser
        [req.body.get "name", req.body.get "email", .str hashed,
         req.body.get "address", req.body.get "phone_number"] = (.ok result, db₂)) :
    (register env db req).response =
      ⟨201, .registered "User registered successfully!" result[0]?⟩ ∧
    ∀ row, result[0]? = some row → ∀ column ∈ row.map Prod.fst,
      column ∈ (register env db req).response.body.fieldNames := by
  have hresp : (register env db req).response =
      ⟨201, .registered "User registered successfully!" result[0]?⟩ := by
    simp [register, hname, hemail, hpassword, hlookup, hhash, hinsert]
  refine ⟨hresp, ?_⟩
  intro row hrow column hcol
  rw [hresp, hrow]
  simp only [Body.fieldNames, List.mem_append]
  exact Or.inr hcol

/-- C5, amended, at the first registration of `a@x.com`. -/
theorem register_success_returns_inserted_row_witness :
    (register (demoEnv (some "k")) ⟨[], 1⟩ registerA).response =
      ⟨201, .registered "User registered successfully!"
        ([[("user_id", .num 1), ("name", .str "A"), ("email", .str "a@x.com"),
           ("password", .str "$2b$10$secret"), ("address", .null),
           ("phone_number", .null)]] : List JsObject)[0]?⟩ :=
  (register_success_returns_inserted_row (demoEnv (some "k")) ⟨[], 1⟩ ⟨[], 1⟩ oneUser
    registerA "$2b$10$secret" _ (by decide) (by decide) (by decide) rfl rfl rfl).1

/-- C9: when name, email and password are present (truthy) and the lookup by
email returns at least one row, `/register` answers 409 with body
`Email already in use.`; the lookup is the only call it makes (no hashing, no
insert), and the database is left as the lookup left it. -/
theorem register_duplicate_email {σ : Type} (env : Env σ) (db db₁ : σ) (req : Request)
    (existingUser : List JsObject)
    (hname : (req.body.get "name").truthy = true)
    (hemail : (req.body.get "email").truthy = true)
    (hpassword : (req.body.get "password").truthy = true)
    (hlookup : env.query db selectUserByEmail [req.body.get "email"]
        = (.ok existingUser, db₁))
    (hfound : existingUser.length > 0) :
    register env db req =
      { response := ⟨409, .error "Email already in use."⟩, db := db₁,
        calls := [.query selectUserByEmail [req.body.get "email"]] } := by
  simp [register, hname, hemail, hpassword, hlookup, hfound]

/-- C9 at a second registration of `a@x.com`. -/
theorem register_duplicate_email_witness :
    register (demoEnv (some "k")) oneUser registerA =
      { response := ⟨409, .error "Email already in use."⟩, db := oneUser,
        calls := [.query selectUserByEmail [.str "a@x.com"]] } :=
  register_duplicate_email (demoEnv (some "k")) oneUser oneUser registerA oneUser.rows
    (by decide) (by decide) (by decide) rfl (by decide)

/-- C10, as stated, fails: with `name: false` no field is absent or empty, yet
`/register` answers 400. -/
theorem register_400_on_present_falsy_name :
    absentOrEmpty (JsVal.bool false) = false ∧
    absentOrEmpty (JsVal.str "a@x.com") = false ∧
    absentOrEmpty (JsVal.str "secret") = false ∧
    (register (demoEnv (some "k")) ⟨[], 1⟩
      (post [("name", .bool false), ("email", .str "a@x.com"),
             ("password", .str "secret")])).response
      = ⟨400, .error "Name, email, and password are required."⟩ := by
  decide

/-- C10, amended: `/register` answers with status 400 if and only if at least
one of name, email, password is falsy in the body (absent, `null`, the empty
string, `0` or `false`); the response is then
`Name, email, and password are required.`, no call is made (no lookup, no
hashing, no insert) and the database is untouched. -/
theorem register_400_iff_falsy_field {σ : Type} (env : Env σ) (db : σ) (req : Request) :
    ((register env db req).response.status = 400 ↔
      ((req.body.get "name").truthy = false ∨ (req.body.get "email").truthy = false ∨
        (req.body.get "password").truthy = false)) ∧
    (((req.body.get "name").truthy = false ∨ (req.body.get "email").truthy = false ∨
        (req.body.get "password").truthy = false) →
      register env db req =
        { response := ⟨400, .error "Name, email, and password are required."⟩,
          db := db, calls := [] }) := by
  by_cases hmissing : (req.body.get "name").truthy = false ∨
      (req.body.get "email").truthy = false ∨ (req.body.get "password").truthy = false
  · have hout : register env db req =
        { response := ⟨400, .error "Name, email, and password are required."⟩,
          db := db, calls := [] } := by
      rcases hmissing with h | h | h <;> simp [register, h]
    exact ⟨⟨fun _ => hmissing, fun _ => by rw [hout]⟩, fun _ => hout⟩
  · refine ⟨⟨fun h400 => ?_, fun h => absurd h hmissing⟩, fun h => absurd h hmissing⟩
    exfalso
    simp only [not_or, Bool.not_eq_false] at hmissing
    obtain ⟨hname, hemail, hpassword⟩ := hmissing
    revert h400
    simp only [register, hname, hemail, hpassword]
    rcases hq : env.query db selectUserByEmail [req.body.get "email"] with ⟨r, db₁⟩
    cases r with
    | error e => simp
    | ok rows =>
      by_cases hlen : rows.length > 0
      · simp [hlen]
      · cases hh : env.bcryptHash (req.body.get "password") 10 with
        | error e => simp [hlen]
        | ok hashed =>
          rcases hi : env.query db₁ insertUser
            [req.body.get "name", req.body.get "email", .str hashed,
             req.body.get "address", req.body.get "phone_number"] with ⟨r₂, db₂⟩
          cases r₂ <;> simp [hlen, hi]

/-- C10, amended, at a body with an empty email and no password. -/
theorem register_400_iff_falsy_field_witness :
    register (demoEnv (some "k")) oneUser (post [("name", .str "A"), ("email", .str "")]) =
      { response := ⟨400, .error "Name, email, and password are required."⟩,
        db := oneUser, calls := [] } :=
  (register_400_iff_falsy_field (demoEnv (some "k")) oneUser
    (post [("name", .str "A"), ("email", .str "")])).2 (Or.inr (Or.inl (by decide)))

/-! ## Login -/

/-- A login request with the given email and password. -/
def loginAs (email password : String) : Request :=
  post [("email", .str email), ("password", .str password)]

/-- C6: when email and password are present (truthy) and either the lookup
returns no row, or it returns rows and `bcrypt.compare` of the password with
the first row's `password` returns false, `/login` answers 401 with body
`Invalid credentials.`, the same response in both cases, and `jwt.sign` is not
called. -/
theorem login_invalid_credentials {σ : Type} (env : Env σ) (db : σ) (req : Request)
    (hemail : (req.body.get "email").truthy = true)
    (hpassword : (req.body.get "password").truthy = true)
    (hcase :
      (∃ db₁, env.query db selectUserByEmail [req.body.get "email"] = (.ok [], db₁)) ∨
      (∃ row rest db₁,
        env.query db selectUserByEmail [req.body.get "email"] = (.ok (row :: rest), db₁) ∧
        env.bcryptCompare (req.body.get "password") (row.get "password") = .ok false)) :
    (login env db req).response = ⟨401, .error "Invalid credentials."⟩ ∧
    ∀ payload key options, Call.jwtSign payload key options ∉ (login env db req).calls := by
  rcases hcase with ⟨db₁, hq⟩ | ⟨row, rest, db₁, hq, hc⟩
  · simp [login, hemail, hpassword, hq]
  · simp [login, hemail, hpassword, hq, hc]

/-- C6 at a wrong password and at an unknown email. -/
theorem login_invalid_credentials_witness :
    (login (demoEnv (some "k")) oneUser (loginAs "a@x.com" "wrong")).response
      = ⟨401, .error "Invalid credentials."⟩ ∧
    (login (demoEnv (some "k")) oneUser (loginAs "nobody@x.com" "secret")).response
      = ⟨401, .error "Invalid credentials."⟩ :=
  ⟨(login_invalid_credentials (demoEnv (some "k")) oneUser (loginAs "a@x.com" "wrong")
      (by decide) (by decide) (Or.inr ⟨_, _, _, rfl, rfl⟩)).1,
   (login_invalid_credentials (demoEnv (some "k")) oneUser (loginAs "nobody@x.com" "secret")
      (by decide) (by decide) (Or.inl ⟨_, rfl⟩)).1⟩

/-- C8, as stated, fails: with `SECRET_KEY` unset, a login with the right
password finds the record and `bcrypt.compare` accepts, but `jwt.sign` throws
and `/login` answers 500, not 200. -/
theorem login_500_when_signing_throws :
    UsersTable.query oneUser selectUserByEmail [.str "a@x.com"] = (.ok oneUser.rows, oneUser) ∧
    demoCompare (.str "secret") (.str "$2b$10$secret") = .ok true ∧
    (login (demoEnv none) oneUser (loginAs "a@x.com" "secret")).response
      = ⟨500, .error "Error logging in."⟩ := by
  refine ⟨rfl, rfl, ?_⟩
  decide

/-- C8, amended: when email and password are present (truthy), the lookup
returns a row, `bcrypt.compare` accepts the password against the first row's
`password`, and `jwt.sign` returns a token, `/login` answers 200 with that
token; `jwt.sign` is called once, with the payload made of exactly the
`user_id` and `email` of the first row, the secret `SECRET_KEY`, and
`expiresIn: '1h'`, a ttl of 3600 seconds: `expires_at = issued_at + 3600`. -/
theorem login_success_issues_token {σ : Type} (env : Env σ) (db db₁ : σ) (req : Request)
    (row : JsObject) (rest : List JsObject) (token : String)
    (hemail : (req.body.get "email").truthy = true)
    (hpassword : (req.body.get "password").truthy = true)
    (hlookup : env.query db selectUserByEmail [req.body.get "email"]
        = (.ok (row :: rest), db₁))
    (hcompare : env.bcryptCompare (req.body.get "password") (row.get "password") = .ok true)
    (hsign : env.jwtSign [("user_id", row.get "user_id"), ("email", row.get "email")]
        env.SECRET_KEY ⟨"1h"⟩ = .ok token) :
    login env db req =
      { response := ⟨200, .loggedIn "Login successful!" token⟩, db := db₁,
        calls := [.query selectUserByEmail [req.body.get "email"],
                  .bcryptCompare (req.body.get "password") (row.get "password"),
                  .jwtSign [("user_id", row.get "user_id"), ("email", row.get "email")]
                    env.SECRET_KEY ⟨"1h"⟩] } ∧
    ∀ issuedAt, SignOptions.expiresAt ⟨"1h"⟩ issuedAt = some (issuedAt + 3600) := by
  refine ⟨by simp [login, hemail, hpassword, hlookup, hcompare, hsign], ?_⟩
  intro issuedAt
  have httl : SignOptions.ttlSeconds ⟨"1h"⟩ = some 3600 := by decide
  simp [SignOptions.expiresAt, httl]

/-- C8, amended, at the right password with the secret set. -/
theorem login_success_issues_token_witness :
    login (demoEnv (some "k")) oneUser (loginAs "a@x.com" "secret") =
      { response := ⟨200, .loggedIn "Login successful!" "k:a@x.com"⟩, db := oneUser,
        calls := [.query selectUserByEmail [.str "a@x.com"],
                  .bcryptCompare (.str "secret") (.str "$2b$10$secret"),
                  .jwtSign [("user_id", .num 1), ("email", .str "a@x.com")]
                    (some "k") ⟨"1h"⟩] } :=
  (login_success_issues_token (demoEnv (some "k")) oneUser oneUser
    (loginAs "a@x.com" "secret") _ [] "k:a@x.com" (by decide) (by decide) rfl rfl rfl).1

end EcommerceServer
